import Mathlib

/-!
Shallow embedding of `scripts/azure/python/export_rbac_roles_and_assignments.py`
(an Azure RBAC role/assignment exporter) and proofs about the properties its
specification states.

Modelling conventions:
* Python dict-shaped records become Lean structures (or association lists for
  the generic report emitters, which consume heterogeneous dicts).
* External collaborators (the ARM client, the directory/graph client, openpyxl)
  are oracles carried in an `Env` / `Directory` record; an `Except Unit` result
  models a call that may raise.
* Python truthiness of optionals/strings/ints is modelled explicitly
  (`pyOr`, `limitTruthy`).
* Machine integers: the CLI ints are unbounded Python ints, so `Int` is exact.
-/

namespace RbacExport

/-- Does the character list start with the given pattern? (Helper for the
Python `str.split` model.) -/
def startsWithSeq : List Char → List Char → Bool
  | _, [] => true
  | [], _ :: _ => false
  | a :: as, b :: bs => a == b && startsWithSeq as bs

/-- Fuel-based worker for Python `str.split(sep)` with a nonempty separator:
scan left to right, emitting a piece at each non-overlapping occurrence of
`sep`. The fuel (initially the string length plus one) only guarantees
structural termination; every step consumes at least one character. -/
def pySplitAux (sep : List Char) : Nat → List Char → List Char → List (List Char)
  | _, acc, [] => [acc.reverse]
  | 0, acc, rest => [acc.reverse ++ rest]
  | fuel + 1, acc, c :: cs =>
      if startsWithSeq (c :: cs) sep then
        acc.reverse :: pySplitAux sep fuel [] (List.drop sep.length (c :: cs))
      else
        pySplitAux sep fuel (c :: acc) cs

/-- Python `s.split(sep)` for a nonempty separator (the only form the source
uses). -/
def pySplit (s sep : String) : List String :=
  (pySplitAux sep.data (s.data.length + 1) [] s.data).map fun cs => String.mk cs

/-- Python `sub in s` substring test (all needles in the source are nonempty):
`sub` occurs in `s` iff splitting on it yields more than one piece. -/
def containsSub (s sub : String) : Bool := (pySplit s sub).length > 1

/-- Python `x or dflt` for an optional string: `None` and `""` are falsy. -/
def pyOr (s : Option String) (dflt : String) : String :=
  match s with
  | none => dflt
  | some v => if v == "" then dflt else v

/-- Python slice `l[:n]` with an `int` bound: non-negative `n` keeps the first
`n` elements, negative `n` drops the last `-n`. -/
def pySliceTo {α : Type} (n : Int) (l : List α) : List α :=
  if 0 ≤ n then l.take n.toNat else l.take ((l.length : Int) + n).toNat

/-- Python truthiness of the optional-int `--limit` argument: `None` and `0`
are falsy. -/
def limitTruthy : Option Int → Bool
  | none => false
  | some n => n ≠ 0

/-- Scope-type classification from `get_role_assignments` (source lines
319-338): derived purely from the scope path string; returns
`(scope_type, subscription_id, resource_group)`. -/
def classifyScope (scope : String) : String × String × String :=
  if containsSub scope "/providers/Microsoft.Management/managementGroups/" then
    ("ManagementGroup", "", "")
  else if containsSub scope "/subscriptions/" && containsSub scope "/resourceGroups/" then
    let parts := pySplit scope "/subscriptions/"
    if parts.length > 1 then
      let subPart := pySplit (parts.getD 1 "") "/resourceGroups/"
      ("ResourceGroup", subPart.headD "", if subPart.length > 1 then subPart.getD 1 "" else "")
    else ("ResourceGroup", "", "")
  else if containsSub scope "/subscriptions/" then
    let parts := pySplit scope "/subscriptions/"
    if parts.length > 1 then
      ("Subscription", (pySplit (parts.getD 1 "") "/").headD "", "")
    else ("Subscription", "", "")
  else ("Unknown", "", "")

/-- One role-assignment object as returned by the provider SDK iterator in
`auth_client.role_assignments.list_for_scope`: `scope` is the assignment's own
(native) scope attribute — which the source never reads — and
`additionalPropsInherited` is `additional_properties.get('inherited', False)`
(`none` models a missing dict or key). -/
structure ProviderAssignment where
  scope : String
  roleDefinitionId : String
  assignmentId : String
  principalId : String
  principalType : Option String
  additionalPropsInherited : Option Bool
  condition : Option String
  conditionVersion : Option String
  createdOn : Option String
deriving DecidableEq, Repr, Inhabited

/-- The assignment dict built by `get_role_assignments` (source lines 340-356),
possibly extended later by the group-expansion pass with the optional
`member*` keys (absent key = `none`). -/
structure AssignmentRecord where
  scope : String
  scopeType : String
  subscriptionId : String
  resourceGroup : String
  roleDefinitionId : String
  roleDefinitionName : String
  assignmentId : String
  principalId : String
  principalType : String
  principalDisplayName : String
  principalUPNOrAppId : String
  inherited : Bool
  condition : String
  conditionVersion : String
  createdOn : String
  memberCount : Option Nat
  memberPrincipalId : Option String
  memberType : Option String
  memberDisplayName : Option String
  memberUPN : Option String
deriving DecidableEq, Repr, Inhabited

/-- `get_role_assignments(credential, scope, logger, include_inherited=True)`
(source lines 307-362). The argument `resp` is the provider response to
`list_for_scope(scope, include_inherited=True)`; `Except.error` models the
call raising, which the function catches, logs and turns into `[]`.
Note line 341: the emitted record's `scope` field is the *queried* scope, and
line 352: the `inherited` field is taken from provider metadata. -/
def get_role_assignments (resp : Except Unit (List ProviderAssignment))
    (scope : String) : List AssignmentRecord :=
  match resp with
  | Except.error _ => []
  | Except.ok lst =>
    lst.map fun a =>
      let c := classifyScope scope
      { scope := scope
        scopeType := c.1
        subscriptionId := c.2.1
        resourceGroup := c.2.2
        roleDefinitionId := a.roleDefinitionId
        roleDefinitionName := ""
        assignmentId := a.assignmentId
        principalId := a.principalId
        principalType := pyOr a.principalType "Unknown"
        principalDisplayName := ""
        principalUPNOrAppId := ""
        inherited := a.additionalPropsInherited.getD false
        condition := a.condition.getD ""
        conditionVersion := a.conditionVersion.getD ""
        createdOn := a.createdOn.getD ""
        memberCount := none
        memberPrincipalId := none
        memberType := none
        memberDisplayName := none
        memberUPN := none }

/-- The "Mark inherited assignments" loop that `main` runs after each
`get_role_assignments` call (source lines 732-734, 763-765, 781-783):
any record whose `scope` field differs from the queried scope gets
`inherited := true`. -/
def markInherited (assignments : List AssignmentRecord) (scope : String) :
    List AssignmentRecord :=
  assignments.map fun a => if a.scope ≠ scope then { a with inherited := true } else a

/-- The process-wide principal cache (`principal_cache`, source line 92):
principal ID → (display name, UPN/AppId). A Python dict whose keys are only
ever inserted once; modelled as an association list with newest entry first. -/
abbrev Cache := List (String × String × String)

/-- Dict lookup `principal_id in principal_cache` / `principal_cache[pid]`. -/
def cacheLookup (cache : Cache) (principal_id : String) : Option (String × String) :=
  match cache.find? (fun p => p.1 == principal_id) with
  | some p => some p.2
  | none => none

/-- One member object of a graph group-membership response. `odataType` is
`additional_data.get('@odata.type')`; `userPrincipalName` is `none` when the
attribute is absent (the source checks `hasattr`). -/
structure RawMember where
  id : String
  odataType : Option String
  displayName : Option String
  userPrincipalName : Option String
deriving DecidableEq, Repr, Inhabited

/-- The directory (Microsoft Graph) collaborator: `hasGraph` is `HAS_GRAPH`;
each lookup either returns attribute data or raises (`Except.error`). For
`users`, the pair is `(display_name, user_principal_name)`; for `apps`
(applications endpoint) it is `(display_name, app_id)`. -/
structure Directory where
  hasGraph : Bool
  users : String → Except Unit (Option String × Option String)
  apps : String → Except Unit (Option String × Option String)
  members : String → Except Unit (List RawMember)
  transitiveMembers : String → Except Unit (List RawMember)

/-- Result of one `resolve_principal` call: the returned pair, the cache
after the call, and how many directory lookups were issued during the call. -/
structure ResolveOutcome where
  result : String × String
  cache : Cache
  directoryCalls : Nat

/-- `resolve_principal` (source lines 365-412): cache check first (keyed by
principal ID alone); fast no-resolve path; otherwise a graph lookup for
User/ServicePrincipal types with silent fallback to the raw ID on failure;
redaction applied last, and the redacted pair is what gets cached. -/
def resolve_principal (dir : Directory) (cache : Cache) (principal_id principal_type : String)
    (no_resolve redact : Bool) : ResolveOutcome :=
  match cacheLookup cache principal_id with
  | some r => { result := r, cache := cache, directoryCalls := 0 }
  | none =>
    if no_resolve then
      let r := if redact then ("[REDACTED]", "[REDACTED]")
               else (principal_id, principal_id)
      { result := r, cache := (principal_id, r) :: cache, directoryCalls := 0 }
    else
      let resolvedAndCalls :=
        if dir.hasGraph && (principal_type == "User" || principal_type == "ServicePrincipal") then
          if principal_type == "User" then
            match dir.users principal_id with
            | Except.ok du => ((pyOr du.1 principal_id, pyOr du.2 principal_id), 1)
            | Except.error _ => ((principal_id, principal_id), 1)
          else
            match dir.apps principal_id with
            | Except.ok da => ((pyOr da.1 principal_id, pyOr da.2 principal_id), 1)
            | Except.error _ => ((principal_id, principal_id), 1)
        else ((principal_id, principal_id), 0)
      let r := if redact then ("[REDACTED]", "[REDACTED]") else resolvedAndCalls.1
      { result := r, cache := (principal_id, r) :: cache, directoryCalls := resolvedAndCalls.2 }

/-- The member dict built by `expand_group_members` (source lines 432-437,
443-448). -/
structure GroupMember where
  memberPrincipalId : String
  memberType : String
  memberDisplayName : String
  memberUPN : String
deriving DecidableEq, Repr, Inhabited

/-- Field extraction for one member object (source lines 432-437): the odata
type tag with the `#microsoft.graph.` marker stripped, display name with
`or member.id` fallback, UPN empty when the attribute is absent. -/
def rawToGroupMember (m : RawMember) : GroupMember :=
  { memberPrincipalId := m.id
    memberType := (m.odataType.getD "Unknown").replace "#microsoft.graph." ""
    memberDisplayName := pyOr m.displayName m.id
    memberUPN := m.userPrincipalName.getD "" }

/-- `expand_group_members` (source lines 415-452): no graph SDK means no
members; otherwise the direct or transitive member query, capped by `[:top]`;
an exception yields the members collected so far (modelled as none). -/
def expand_group_members (dir : Directory) (group_id : String) (top : Int)
    (mode : String) : List GroupMember :=
  if !dir.hasGraph then []
  else if mode == "direct" then
    match dir.members group_id with
    | Except.ok value => (pySliceTo top value).map rawToGroupMember
    | Except.error _ => []
  else if mode == "transitive" then
    match dir.transitiveMembers group_id with
    | Except.ok value => (pySliceTo top value).map rawToGroupMember
    | Except.error _ => []
  else []

/-- One role-definition object from the provider SDK iterator in
`auth_client.role_definitions.list`. `permissions` only matters through its
length; entries are modelled as units. -/
structure ProviderRoleDef where
  roleName : Option String
  id : String
  roleType : Option String
  description : Option String
  permissions : Option (List Unit)
  assignableScopes : Option (List String)
deriving DecidableEq, Repr, Inhabited

/-- The role-definition dict built by `get_role_definitions` (source lines
290-298). `roleDefinitionName` holds `role_name` with `None` rendered as the
empty string (the CSV layer writes `None` as empty anyway). -/
structure RoleDef where
  roleDefinitionName : String
  roleDefinitionId : String
  isCustom : Bool
  description : String
  permissionsCount : Nat
  assignableScopes : String
deriving DecidableEq, Repr, Inhabited

/-- `get_role_definitions` (source lines 284-304): an exception is caught and
yields `[]`; otherwise each provider object is mapped field by field
(`isCustom` is Python `not role_def.role_type`, true for `None` or `""`). -/
def get_role_definitions (resp : Except Unit (List ProviderRoleDef)) : List RoleDef :=
  match resp with
  | Except.error _ => []
  | Except.ok defs =>
    defs.map fun rd =>
      { roleDefinitionName := rd.roleName.getD ""
        roleDefinitionId := rd.id
        isCustom := match rd.roleType with
                    | none => true
                    | some s => s == ""
        description := pyOr rd.description ""
        permissionsCount := (rd.permissions.getD []).length
        assignableScopes := String.intercalate ";" (rd.assignableScopes.getD []) }

/-- A dict row as consumed by the report emitters: ordered key/value pairs
(Python dicts preserve insertion order; all values are rendered as strings,
matching what the serializers emit). -/
abbrev Row := List (String × String)

/-- Dict lookup `row.get(key, dflt)`. -/
def lookupD (row : Row) (key dflt : String) : String :=
  match row.find? (fun kv => kv.1 == key) with
  | some kv => kv.2
  | none => dflt

/-- Membership in the fixed key list `['principalUPNOrAppId', 'memberUPN']`
that every emitter's redaction loop iterates over (source lines 492, 527,
573, 609). -/
def isRedactKey (k : String) : Bool :=
  k == "principalUPNOrAppId" || k == "memberUPN"

/-- The per-row redaction step shared verbatim by all four emitters: each of
the two keys, where present, gets the sentinel value. -/
def redactRow (row : Row) : Row :=
  row.map fun kv =>
    if isRedactKey kv.1 then (kv.1, "[REDACTED]") else kv

/-- The `if redact:` block of each emitter: rebuild every row with the
sentinel substitution, otherwise pass the data through. -/
def redactData (redact : Bool) (data : List Row) : List Row :=
  if redact then data.map redactRow else data

/-- Content of a CSV artifact: the header (keys of the first row, source line
501) and the dict rows handed to `writer.writerows`. -/
structure CsvFile where
  fieldnames : List String
  rows : List Row
deriving DecidableEq, Repr

/-- `write_csv` (source lines 480-508). `none` models the early return on
empty data: no file is opened or written. -/
def write_csv (data : List Row) (redact : Bool) : Option CsvFile :=
  if data.isEmpty then none
  else
    let d := redactData redact data
    some { fieldnames := (d.headD []).map (fun kv => kv.1), rows := d }

/-- Content of an XLSX artifact: header row plus cell rows (each dict row
projected through the headers with `row.get(header, '')`, source line 550). -/
structure XlsxFile where
  headers : List String
  cells : List (List String)
deriving DecidableEq, Repr

/-- `write_xlsx` (source lines 511-555): skipped entirely without openpyxl,
early return on empty data, else redaction then header/cell rows. -/
def write_xlsx (hasOpenpyxl : Bool) (data : List Row) (redact : Bool) : Option XlsxFile :=
  if !hasOpenpyxl then none
  else if data.isEmpty then none
  else
    let d := redactData redact data
    let headers := (d.headD []).map (fun kv => kv.1)
    some { headers := headers
           cells := d.map (fun row => headers.map (fun h => lookupD row h "")) }

/-- One Markdown table row: `'| ' + ' | '.join(cells) + ' |\n'`. -/
def mdRowLine (cells : List String) : String :=
  "| " ++ String.intercalate " | " cells ++ " |\n"

/-- Content of the Markdown artifact in the order it is written: the header
and separator lines, the data-row lines, and the trailing footer line. -/
structure MarkdownFile where
  headerLines : List String
  dataLines : List String
  footer : String
deriving DecidableEq, Repr

/-- `write_markdown` (source lines 558-594): early return on empty data;
`data[:top]` row cap, then redaction; headers and rows only when the limited
slice is nonempty; the footer is always written last. -/
def write_markdown (data : List Row) (top : Int) (redact : Bool) : Option MarkdownFile :=
  if data.isEmpty then none
  else
    let limited := redactData redact (pySliceTo top data)
    let headers := (limited.headD []).map (fun kv => kv.1)
    some { headerLines :=
             if limited.isEmpty then []
             else [mdRowLine headers,
                   "|" ++ String.intercalate "|" (headers.map (fun _ => "---")) ++ "|\n"]
           dataLines := limited.map (fun row => mdRowLine (headers.map (fun h => lookupD row h "")))
           footer := "\n*Showing first " ++ toString limited.length ++ " rows of " ++
                     toString data.length ++ " total*\n" }

/-- `write_json` (source lines 597-620): early return on empty data, else the
redacted rows serialized as a JSON array (serialization itself is external). -/
def write_json (data : List Row) (redact : Bool) : Option (List Row) :=
  if data.isEmpty then none else some (redactData redact data)

/-- The parsed CLI arguments (source lines 95-152). `subscriptions := []`
models both an absent `--subscriptions` (argparse `None`) and an empty list —
both are falsy wherever the source tests the attribute. `limit := none`
models an absent `--limit`. -/
structure Args where
  subscriptions : List String
  include_resources : Bool
  expand_group_members : Bool
  redact : Bool
  markdown_top : Int
  no_resolve_principals : Bool
  confirm_large_scan : Bool
  output_path : Option String
  safe_mode : Bool
  max_concurrency : Int
  limit : Option Int
  discover_subscriptions : Bool
  traverse_management_groups : Bool
  group_members_top : Int
  group_membership_mode : String
  json : Bool
  bootstrap : Bool
deriving DecidableEq, Repr

/-- `validate_arguments` (source lines 155-175): `Except.error code` models
`sys.exit(code)`. No target selection exits 1; transitive membership mode
without `--confirm-large-scan` exits 1; otherwise explicit subscriptions are
comma-expanded, stripped and filtered. -/
def validate_arguments (args : Args) : Except Nat Args :=
  if args.subscriptions.isEmpty && !args.discover_subscriptions &&
     !args.traverse_management_groups then
    Except.error 1
  else if args.group_membership_mode == "transitive" && !args.confirm_large_scan then
    Except.error 1
  else if !args.subscriptions.isEmpty then
    let expanded := ((args.subscriptions.map (fun s => pySplit s ",")).flatten).map String.trim
    Except.ok { args with subscriptions := expanded.filter (fun s => s ≠ "") }
  else Except.ok args

/-- Source line 88. -/
def LARGE_SUBSCRIPTION_THRESHOLD : Nat := 25

/-- Source line 89. -/
def LARGE_RESOURCE_GROUP_THRESHOLD : Nat := 200

/-- `sum(len(rgs) for rgs in resource_groups_per_sub.values())` (source line
459). -/
def totalRgCount (resource_groups_per_sub : List (String × List String)) : Nat :=
  (resource_groups_per_sub.map (fun p => p.2.length)).sum

/-- `check_large_tenant_thresholds` (source lines 455-477): true means
proceed. Any of the three trip conditions makes the outcome depend on
`--confirm-large-scan` alone. -/
def check_large_tenant_thresholds (subscriptions : List String)
    (resource_groups_per_sub : List (String × List String)) (args : Args) : Bool :=
  let sub_count := subscriptions.length
  let total_rg_count := totalRgCount resource_groups_per_sub
  if sub_count > LARGE_SUBSCRIPTION_THRESHOLD ∨
     total_rg_count > LARGE_RESOURCE_GROUP_THRESHOLD ∨
     (args.include_resources = true ∧ args.subscriptions = []) then
    args.confirm_large_scan
  else true

/-- The external world of one run: credential viability, openpyxl
availability, the ARM responses (management groups and subscriptions already
unwrapped from their own catch-all handlers, which turn a failure into `[]`),
the per-scope role-definition and role-assignment fetch responses (where
`Except.error` is a raised exception), and the directory collaborator. -/
structure Env where
  credentialOk : Bool
  hasOpenpyxl : Bool
  managementGroups : List String
  subscriptions : List String
  resourceGroups : String → List String
  roleDefs : String → Except Unit (List ProviderRoleDef)
  roleAssignments : String → Except Unit (List ProviderAssignment)
  directory : Directory

/-- Management-group scope string (source line 722). -/
def mgScope (name : String) : String :=
  "/providers/Microsoft.Management/managementGroups/" ++ name

/-- Subscription scope string (source line 753). -/
def subScope (subId : String) : String := "/subscriptions/" ++ subId

/-- Resource-group scope string (source line 775). -/
def rgScope (subId rgName : String) : String :=
  "/subscriptions/" ++ subId ++ "/resourceGroups/" ++ rgName

/-- Subscription selection in `main` (source lines 678-683): an explicit
(already comma-expanded) list filters the tenant's accessible subscriptions
(`get_subscriptions` drops unknown IDs, source line 246); either discovery
flag takes them all; otherwise none were requested. -/
def targetSubscriptions (env : Env) (args : Args) : List String :=
  if !args.subscriptions.isEmpty then
    env.subscriptions.filter (fun s => args.subscriptions.contains s)
  else if args.discover_subscriptions || args.traverse_management_groups then
    env.subscriptions
  else []

/-- Worker for the resource-group enumeration loop (source lines 692-697):
one entry per subscription, breaking once `--limit` (when truthy) many
subscriptions have entries. -/
def enumerateRGsAux (env : Env) (limit : Option Int) :
    List String → Nat → List (String × List String)
  | [], _ => []
  | s :: rest, count =>
      let entry := (s, env.resourceGroups s)
      let newCount := count + 1
      if limitTruthy limit && (newCount : Int) ≥ limit.getD 0 then [entry]
      else entry :: enumerateRGsAux env limit rest newCount

/-- `resource_groups_per_sub` construction (source lines 689-697): resource
groups are enumerated only when `--include-resources` or a truthy `--limit`
is given. -/
def resourceGroupsPerSub (env : Env) (args : Args) (subs : List String) :
    List (String × List String) :=
  if args.include_resources || limitTruthy args.limit then
    enumerateRGsAux env args.limit subs 0
  else []

/-- The management-group processing loop (source lines 719-746): per group,
fetch role definitions and role assignments, run the inherited-marking loop,
accumulate, and break once `--limit` (when truthy) groups are processed.
The `except` branch that would append an `MG:` tag to `scopes_skipped` is
unreachable: both fetch helpers catch their own exceptions internally. -/
def processMGs (env : Env) (args : Args) :
    List String → Nat → List RoleDef × List AssignmentRecord
  | [], _ => ([], [])
  | mg :: rest, count =>
      let scope := mgScope mg
      let defs := get_role_definitions (env.roleDefs scope)
      let asg := markInherited (get_role_assignments (env.roleAssignments scope) scope) scope
      let newCount := count + 1
      if limitTruthy args.limit && (newCount : Int) ≥ args.limit.getD 0 then (defs, asg)
      else
        let rest' := processMGs env args rest newCount
        (defs ++ rest'.1, asg ++ rest'.2)

/-- The per-subscription resource-group loop (source lines 773-794): the
resource-group counter is global across subscriptions and the break only
leaves the inner loop. The `RG:` tagged `except` branch is unreachable for
fetch failures (they are caught inside `get_role_assignments`). -/
def processRGsForSub (env : Env) (args : Args) (subId : String) :
    List String → Nat → List AssignmentRecord × Nat
  | [], rgCount => ([], rgCount)
  | rg :: rest, rgCount =>
      let scope := rgScope subId rg
      let asg := markInherited (get_role_assignments (env.roleAssignments scope) scope) scope
      let newCount := rgCount + 1
      if limitTruthy args.limit && (newCount : Int) ≥ args.limit.getD 0 then (asg, newCount)
      else
        let rest' := processRGsForSub env args subId rest newCount
        (asg ++ rest'.1, rest'.2)

/-- The subscription processing loop (source lines 750-803): per
subscription, fetch definitions and assignments, run the inherited-marking
loop, optionally process its resource groups, and break once `--limit` (when
truthy) subscriptions are processed. The `SUB:` tagged `except` branch is
unreachable for fetch failures. -/
def processSubs (env : Env) (args : Args) (rgMap : List (String × List String)) :
    List String → Nat → Nat → List RoleDef × List AssignmentRecord
  | [], _, _ => ([], [])
  | subId :: rest, subCount, rgCount =>
      let scope := subScope subId
      let defs := get_role_definitions (env.roleDefs scope)
      let asg := markInherited (get_role_assignments (env.roleAssignments scope) scope) scope
      let rgResult :=
        if args.include_resources then
          match rgMap.find? (fun p => p.1 == subId) with
          | some p => processRGsForSub env args subId p.2 rgCount
          | none => ([], rgCount)
        else ([], rgCount)
      let newSubCount := subCount + 1
      if limitTruthy args.limit && (newSubCount : Int) ≥ args.limit.getD 0 then
        (defs, asg ++ rgResult.1)
      else
        let rest' := processSubs env args rgMap rest newSubCount rgResult.2
        (defs ++ rest'.1, asg ++ rgResult.1 ++ rest'.2)

/-- The principal-resolution pass of `main` (source lines 806-831): every
assignment gets its display-name/UPN fields from `resolve_principal`, with
the cache threaded through the whole pass. -/
def resolvePass (dir : Directory) (args : Args) :
    List AssignmentRecord → Cache → List AssignmentRecord × Cache
  | [], cache => ([], cache)
  | a :: rest, cache =>
      let o := resolve_principal dir cache a.principalId a.principalType
                 args.no_resolve_principals args.redact
      let a' := { a with principalDisplayName := o.result.1
                         principalUPNOrAppId := o.result.2 }
      let rest' := resolvePass dir args rest o.cache
      (a' :: rest'.1, rest'.2)

/-- The group-expansion pass of `main` (source lines 834-867): for Group
principals with a nonempty member list, the member count and the first
member's attributes are merged onto the assignment (UPN redacted when
requested). -/
def expandPass (dir : Directory) (args : Args) (asgs : List AssignmentRecord) :
    List AssignmentRecord :=
  asgs.map fun a =>
    if a.principalType == "Group" then
      let members := expand_group_members dir a.principalId args.group_members_top
                       args.group_membership_mode
      if !members.isEmpty then
        let first := members.headD default
        { a with memberCount := some members.length
                 memberPrincipalId := some first.memberPrincipalId
                 memberType := some first.memberType
                 memberDisplayName := some first.memberDisplayName
                 memberUPN := some (if !args.redact then first.memberUPN else "[REDACTED]") }
      else a
    else a

/-- Python `str(...)` of the booleans stored in the assignment dicts. -/
def pyStrBool (b : Bool) : String := if b then "True" else "False"

/-- The assignment dict in emitter form: the keys in construction order
(source lines 340-356), the two principal fields updated in place by the
resolution pass, and the optional member keys appended in the order the
expansion pass inserts them (source lines 851-860). -/
def AssignmentRecord.toRow (a : AssignmentRecord) : Row :=
  [("scope", a.scope), ("scopeType", a.scopeType),
   ("subscriptionId", a.subscriptionId), ("resourceGroup", a.resourceGroup),
   ("roleDefinitionId", a.roleDefinitionId), ("roleDefinitionName", a.roleDefinitionName),
   ("assignmentId", a.assignmentId), ("principalId", a.principalId),
   ("principalType", a.principalType), ("principalDisplayName", a.principalDisplayName),
   ("principalUPNOrAppId", a.principalUPNOrAppId), ("inherited", pyStrBool a.inherited),
   ("condition", a.condition), ("conditionVersion", a.conditionVersion),
   ("createdOn", a.createdOn)]
  ++ (match a.memberCount with | some n => [("memberCount", toString n)] | none => [])
  ++ (match a.memberPrincipalId with | some s => [("memberPrincipalId", s)] | none => [])
  ++ (match a.memberType with | some s => [("memberType", s)] | none => [])
  ++ (match a.memberDisplayName with | some s => [("memberDisplayName", s)] | none => [])
  ++ (match a.memberUPN with | some s => [("memberUPN", s)] | none => [])

/-- The role-definition dict in emitter form (key order of source lines
291-298). -/
def RoleDef.toRow (rd : RoleDef) : Row :=
  [("roleDefinitionName", rd.roleDefinitionName),
   ("roleDefinitionId", rd.roleDefinitionId),
   ("isCustom", pyStrBool rd.isCustom),
   ("description", rd.description),
   ("permissionsCount", toString rd.permissionsCount),
   ("assignableScopes", rd.assignableScopes)]

/-- One output artifact file of a run, with its content (the `index.json`
artifact carries its row counts; the log/summary files live in the logs
directory and are not output artifacts). -/
inductive Artifact
  | roleDefinitionsCsv (f : CsvFile)
  | roleAssignmentsCsv (f : CsvFile)
  | roleAssignmentsXlsx (f : XlsxFile)
  | roleAssignmentsMd (f : MarkdownFile)
  | roleDefinitionsJson (f : List Row)
  | roleAssignmentsJson (f : List Row)
  | perSubCsv (subId : String) (f : CsvFile)
  | perSubXlsx (subId : String) (f : XlsxFile)
  | indexJson (roleDefCount assignmentCount : Nat)
deriving DecidableEq, Repr

/-- The observable outcome of a run of `main`: the process exit code, the
output artifact files created, the merged assignment collection, and the
run-summary lists. -/
structure RunOutcome where
  exitCode : Nat
  artifacts : List Artifact
  assignments : List AssignmentRecord
  scopesSkipped : List String
  errors : List String
deriving DecidableEq, Repr

/-- The per-subscription grouping of assignments (source lines 889-895): a
dict keyed by `subscriptionId`, skipping empty IDs, keys in order of first
appearance, values in traversal order. -/
def addToGroups (groups : List (String × List AssignmentRecord)) (subId : String)
    (a : AssignmentRecord) : List (String × List AssignmentRecord) :=
  match groups with
  | [] => [(subId, [a])]
  | g :: rest =>
      if g.1 == subId then (g.1, g.2 ++ [a]) :: rest
      else g :: addToGroups rest subId a

/-- Fold of the grouping loop (source lines 890-895). -/
def groupBySub (asgs : List AssignmentRecord) : List (String × List AssignmentRecord) :=
  asgs.foldl (fun groups a =>
    if a.subscriptionId ≠ "" then addToGroups groups a.subscriptionId a else groups) []

/-- Everything `main` does after the safety rail has passed (source lines
705-952): aggregation over management groups and subscriptions, the
principal-resolution and group-expansion passes, and the output writes.
The final exit code (lines 944-952) is computed from the `errors`,
`warnings` and `scopes_skipped` lists, all three of which remain empty: the
only appends to them sit in `except` branches that cannot fire because every
fetch helper catches its own exceptions. -/
def mainAfterRail (env : Env) (args : Args) (mgs subs : List String)
    (rgMap : List (String × List String)) : RunOutcome :=
  let mgResult := if args.traverse_management_groups && !mgs.isEmpty
                  then processMGs env args mgs 0 else ([], [])
  let subResult := processSubs env args rgMap subs 0 0
  let all_role_definitions := mgResult.1 ++ subResult.1
  let asgs0 := mgResult.2 ++ subResult.2
  let asgs1 := if !args.no_resolve_principals && !asgs0.isEmpty
               then (resolvePass env.directory args asgs0 []).1 else asgs0
  let asgs2 := if args.expand_group_members && !asgs1.isEmpty
               then expandPass env.directory args asgs1 else asgs1
  let defRows := all_role_definitions.map RoleDef.toRow
  let asgRows := asgs2.map AssignmentRecord.toRow
  let artifacts :=
    ((write_csv defRows args.redact).elim [] (fun f => [Artifact.roleDefinitionsCsv f]))
    ++ ((write_csv asgRows args.redact).elim [] (fun f => [Artifact.roleAssignmentsCsv f]))
    ++ (if env.hasOpenpyxl then
          (write_xlsx env.hasOpenpyxl asgRows args.redact).elim []
            (fun f => [Artifact.roleAssignmentsXlsx f])
        else [])
    ++ (if args.markdown_top > 0 then
          (write_markdown asgRows args.markdown_top args.redact).elim []
            (fun f => [Artifact.roleAssignmentsMd f])
        else [])
    ++ (if args.json then
          ((write_json defRows args.redact).elim [] (fun f => [Artifact.roleDefinitionsJson f]))
          ++ ((write_json asgRows args.redact).elim [] (fun f => [Artifact.roleAssignmentsJson f]))
        else [])
    ++ (groupBySub asgs2).foldr (fun g acc =>
          ((write_csv (g.2.map AssignmentRecord.toRow) args.redact).elim []
             (fun f => [Artifact.perSubCsv g.1 f]))
          ++ (if env.hasOpenpyxl then
                (write_xlsx env.hasOpenpyxl (g.2.map AssignmentRecord.toRow) args.redact).elim []
                  (fun f => [Artifact.perSubXlsx g.1 f])
              else [])
          ++ acc) []
    ++ [Artifact.indexJson all_role_definitions.length asgs2.length]
  let errors : List String := []
  let warnings : List String := []
  let scopes_skipped : List String := []
  let exitCode := if errors.length > 0 then 1
                  else if warnings.length > 0 || !scopes_skipped.isEmpty then 2
                  else 0
  { exitCode := exitCode, artifacts := artifacts, assignments := asgs2,
    scopesSkipped := scopes_skipped, errors := errors }

/-- `main` (source lines 633-952) as a function from the argument record and
the environment to the run outcome. In order: argument validation (exit 1),
preflight credential check (exit 1), management-group listing, subscription
selection (exit 1 when empty), resource-group enumeration, the large-tenant
safety rail (exit 2, before any output path exists), then the post-rail body.
The `--bootstrap` branch shells out to PowerShell and is an external
collaborator, not modelled. -/
def mainModel (env : Env) (args0 : Args) : RunOutcome :=
  match validate_arguments args0 with
  | Except.error code =>
      { exitCode := code, artifacts := [], assignments := [],
        scopesSkipped := [], errors := [] }
  | Except.ok args =>
      if !env.credentialOk then
        { exitCode := 1, artifacts := [], assignments := [],
          scopesSkipped := [], errors := [] }
      else
        let mgs := if args.traverse_management_groups then env.managementGroups else []
        let subs := targetSubscriptions env args
        if subs.isEmpty then
          { exitCode := 1, artifacts := [], assignments := [],
            scopesSkipped := [], errors := [] }
        else
          let rgMap := resourceGroupsPerSub env args subs
          if !check_large_tenant_thresholds subs rgMap args then
            { exitCode := 2, artifacts := [], assignments := [],
              scopesSkipped := [], errors := [] }
          else
            mainAfterRail env args mgs subs rgMap

/-- Check of the redaction property for one emitted row: every present
`principalUPNOrAppId` or `memberUPN` key carries the sentinel value. -/
def rowRedactedB (row : Row) : Bool :=
  row.all fun kv => !(isRedactKey kv.1) || (kv.2 == "[REDACTED]")

/-- Fixture: a directory collaborator without the graph SDK
(`HAS_GRAPH = False`). -/
def dirNoGraph : Directory :=
  { hasGraph := false
    users := fun _ => Except.error ()
    apps := fun _ => Except.error ()
    members := fun _ => Except.error ()
    transitiveMembers := fun _ => Except.error () }

/-- Fixture: a directory where graph lookups succeed. -/
def dirGraphW : Directory :=
  { hasGraph := true
    users := fun _ => Except.ok (some "Alice Adams", some "alice@example.test")
    apps := fun _ => Except.ok (some "Deploy App", some "app-123")
    members := fun _ => Except.ok []
    transitiveMembers := fun _ => Except.ok [] }

/-- Fixture: the argparse defaults (source lines 109-151) with subscription
discovery switched on so target selection passes validation. -/
def argsBase : Args :=
  { subscriptions := []
    include_resources := false
    expand_group_members := false
    redact := false
    markdown_top := 200
    no_resolve_principals := false
    confirm_large_scan := false
    output_path := none
    safe_mode := true
    max_concurrency := 4
    limit := none
    discover_subscriptions := true
    traverse_management_groups := false
    group_members_top := 500
    group_membership_mode := "direct"
    json := false
    bootstrap := false }

/-- Fixture: `argsBase` with the large-scan override confirmed. -/
def argsConfirm : Args := { argsBase with confirm_large_scan := true }

/-- Fixture: transitive group-membership mode requested without the
confirmation flag, targets explicitly given. -/
def args6 : Args :=
  { argsBase with subscriptions := ["s1"], discover_subscriptions := false,
                  group_membership_mode := "transitive" }

/-- Fixture: discovery run with principal resolution disabled (used with
`env7`). -/
def args7 : Args := { argsBase with no_resolve_principals := true }

/-- Fixture: an empty but authenticated tenant. -/
def envTrivial : Env :=
  { credentialOk := true
    hasOpenpyxl := false
    managementGroups := []
    subscriptions := []
    resourceGroups := fun _ => []
    roleDefs := fun _ => Except.ok []
    roleAssignments := fun _ => Except.ok []
    directory := dirNoGraph }

/-- Fixture: a tenant with 26 accessible subscriptions and nothing else. -/
def env26 : Env :=
  { envTrivial with subscriptions :=
      ["s01", "s02", "s03", "s04", "s05", "s06", "s07", "s08", "s09", "s10",
       "s11", "s12", "s13", "s14", "s15", "s16", "s17", "s18", "s19", "s20",
       "s21", "s22", "s23", "s24", "s25", "s26"] }

/-- Fixture: a provider assignment native to subscription `sub2`. -/
def pa2 : ProviderAssignment :=
  { scope := "/subscriptions/sub2"
    roleDefinitionId := "rd2"
    assignmentId := "a2"
    principalId := "p2"
    principalType := some "User"
    additionalPropsInherited := some false
    condition := none
    conditionVersion := none
    createdOn := none }

/-- Fixture: a tenant with two subscriptions where the role-assignment fetch
for `sub1` raises and the one for `sub2` returns a single assignment. -/
def env7 : Env :=
  { envTrivial with
      subscriptions := ["sub1", "sub2"]
      roleAssignments := fun s =>
        if s == "/subscriptions/sub1" then Except.error () else Except.ok [pa2] }

/-- Fixture: a provider assignment whose own (native) scope is a management
group, with provider-reported `inherited` metadata `False`. -/
def c1Provider : ProviderAssignment :=
  { scope := "/providers/Microsoft.Management/managementGroups/mg1"
    roleDefinitionId := "rd1"
    assignmentId := "a1"
    principalId := "p1"
    principalType := some "User"
    additionalPropsInherited := some false
    condition := none
    conditionVersion := none
    createdOn := none }

/-- Fixture: the record `get_role_assignments` builds from `pa2` when
subscription `abc` is queried. -/
def recW : AssignmentRecord :=
  (get_role_assignments (Except.ok [pa2]) "/subscriptions/abc").headD default

/-- Fixture: two one-key rows for the Markdown row-cap witness. -/
def dataW8 : List Row :=
  [[("principalUPNOrAppId", "u1")], [("principalUPNOrAppId", "u2")]]

/-! Shared helper lemmas. -/

/-- Redacting a row makes every present redaction key carry the sentinel. -/
theorem rowRedactedB_redactRow (row : Row) : rowRedactedB (redactRow row) = true := by
  induction row with
  | nil => rfl
  | cons kv rest ih =>
      unfold rowRedactedB redactRow at ih ⊢
      rw [List.map_cons, List.all_cons, ih, Bool.and_true]
      cases h : isRedactKey kv.1
      · simp [h]
      · simp [h]

/-- Every row of redacted data satisfies the row-level redaction check. -/
theorem redactData_true_all (data : List Row) :
    (redactData true data).all rowRedactedB = true := by
  simp only [redactData, if_pos, List.all_eq_true, List.mem_map]
  rintro b ⟨row, _, rfl⟩
  exact rowRedactedB_redactRow row

/-- Redaction does not change the number of rows. -/
theorem redactData_length (redact : Bool) (data : List Row) :
    (redactData redact data).length = data.length := by
  cases redact <;> simp [redactData]

/-- For a non-negative bound the Python slice is a `take`. -/
theorem pySliceTo_length_of_nonneg {α : Type} (n : Int) (l : List α) (h : 0 ≤ n) :
    (pySliceTo n l).length = min l.length n.toNat := by
  simp [pySliceTo, h, List.length_take, Nat.min_comm]

/-- A cache hit short-circuits `resolve_principal`: the cached pair comes
back unchanged, the cache is untouched and no directory call is issued. -/
theorem resolve_principal_hit (dir : Directory) (cache : Cache) (pid t : String)
    (nr rd : Bool) (r : String × String) (h : cacheLookup cache pid = some r) :
    resolve_principal dir cache pid t nr rd =
      { result := r, cache := cache, directoryCalls := 0 } := by
  simp [resolve_principal, h]

/-- After any `resolve_principal` call the cache maps the principal ID to the
pair the call returned. -/
theorem resolve_principal_caches (dir : Directory) (cache : Cache) (pid t : String)
    (nr rd : Bool) :
    cacheLookup (resolve_principal dir cache pid t nr rd).cache pid
      = some (resolve_principal dir cache pid t nr rd).result := by
  unfold resolve_principal
  cases h : cacheLookup cache pid with
  | some r => simp [h]
  | none =>
      by_cases hnr : nr
      · simp [hnr, cacheLookup]
      · simp [hnr, cacheLookup]

/-- If the three trip conditions reduce to the first two (the thresholds),
the rail outcome is exactly the confirmation flag. -/
theorem check_thresholds_tripped (subs : List String)
    (rgMap : List (String × List String)) (args : Args)
    (h : subs.length > LARGE_SUBSCRIPTION_THRESHOLD
       ∨ totalRgCount rgMap > LARGE_RESOURCE_GROUP_THRESHOLD) :
    check_large_tenant_thresholds subs rgMap args = args.confirm_large_scan := by
  unfold check_large_tenant_thresholds
  exact if_pos (h.elim Or.inl (fun hb => Or.inr (Or.inl hb)))

/-! Claim theorems. -/

/-- C5: the scope-type classifier maps
`/providers/Microsoft.Management/managementGroups/mg1` to `ManagementGroup`,
`/subscriptions/abc` to `Subscription` with subscription ID `abc`, and
`/subscriptions/abc/resourceGroups/rg1` to `ResourceGroup` with subscription
ID `abc` and resource group `rg1`; the classifier is by construction a
function of the scope path string alone. -/
theorem c5_scope_classification :
    classifyScope "/providers/Microsoft.Management/managementGroups/mg1"
      = ("ManagementGroup", "", "")
    ∧ classifyScope "/subscriptions/abc" = ("Subscription", "abc", "")
    ∧ classifyScope "/subscriptions/abc/resourceGroups/rg1"
      = ("ResourceGroup", "abc", "rg1") :=
  ⟨by decide, by decide, by decide⟩

/-- C9: every assignment record produced by `get_role_assignments` has its
`scope` field equal to the queried scope string passed into the call, so each
record of the merged collection carries the scope it was queried at. -/
theorem c9_record_scope_is_queried_scope
    (resp : Except Unit (List ProviderAssignment)) (scope : String)
    (rec : AssignmentRecord) (hmem : rec ∈ get_role_assignments resp scope) :
    rec.scope = scope := by
  cases resp with
  | error e => simp [get_role_assignments] at hmem
  | ok lst =>
      simp only [get_role_assignments, List.mem_map] at hmem
      obtain ⟨a, _, rfl⟩ := hmem
      rfl

/-- Witness for C9 at a concrete provider response and queried scope. -/
theorem c9_witness : recW.scope = "/subscriptions/abc" :=
  c9_record_scope_is_queried_scope (Except.ok [pa2]) "/subscriptions/abc" recW
    (by decide)

/-- C1 (refuted; code bug): the inherited flag is NOT recomputed from the
scope path. `get_role_assignments` overwrites each record's `scope` field
with the queried scope (line 341), so the re-marking loop in `main`
(`if assignment['scope'] != scope`) compares the queried scope with itself
and is dead code — `markInherited` is the identity on every fetch result.
Concretely, a provider assignment whose own scope is a management group,
returned with provider metadata `inherited = False` while querying
`/subscriptions/abc`, ends up in the merged output with `inherited = false`,
though the claim requires `true`. -/
theorem c1_inherited_not_recomputed :
    (∀ (resp : Except Unit (List ProviderAssignment)) (s : String),
        markInherited (get_role_assignments resp s) s = get_role_assignments resp s)
    ∧ c1Provider.scope ≠ "/subscriptions/abc"
    ∧ (markInherited (get_role_assignments (Except.ok [c1Provider]) "/subscriptions/abc")
         "/subscriptions/abc").map (fun r => r.inherited) = [false] := by
  refine ⟨?_, by decide, by decide⟩
  intro resp s
  cases resp with
  | error e => rfl
  | ok lst =>
      simp only [get_role_assignments, markInherited, List.map_map]
      apply List.map_congr_left
      intro a _
      simp

/-- C10: called on an empty data list, each of the four emitters returns
before opening the output file (`none` = no file created or modified). -/
theorem c10_empty_data_no_file :
    ∀ (redact : Bool) (top : Int) (hasOp : Bool),
      write_csv [] redact = none ∧ write_xlsx hasOp [] redact = none
      ∧ write_markdown [] top redact = none ∧ write_json [] redact = none := by
  intro r t h
  refine ⟨rfl, ?_, rfl, rfl⟩
  cases h <;> rfl

/-- C3: with redaction enabled, the rows each of the four emitters writes are
exactly (CSV, JSON) or cell-projections of (XLSX, Markdown) the rows produced
by the one shared redaction step `redactData true`, in which every present
`principalUPNOrAppId` or `memberUPN` key carries the sentinel `[REDACTED]` —
so the property holds identically across all four formats. -/
theorem c3_redaction_uniform_across_emitters (data : List Row) (top : Int) (hasOp : Bool) :
    ((redactData true data).all rowRedactedB = true)
    ∧ ((redactData true (pySliceTo top data)).all rowRedactedB = true)
    ∧ ((write_csv data true).elim True (fun f => f.rows = redactData true data))
    ∧ ((write_json data true).elim True (fun f => f = redactData true data))
    ∧ ((write_xlsx hasOp data true).elim True (fun f =>
          f.cells = (redactData true data).map (fun row =>
            f.headers.map (fun h => lookupD row h ""))))
    ∧ ((write_markdown data top true).elim True (fun f =>
          f.dataLines = (redactData true (pySliceTo top data)).map (fun row =>
            mdRowLine ((((redactData true (pySliceTo top data)).headD []).map
              (fun kv => kv.1)).map (fun h => lookupD row h ""))))) := by
  refine ⟨redactData_true_all data, redactData_true_all (pySliceTo top data), ?_, ?_, ?_, ?_⟩
  · by_cases hd : data.isEmpty <;> simp [write_csv, hd]
  · by_cases hd : data.isEmpty <;> simp [write_json, hd]
  · cases hasOp with
    | false => simp [write_xlsx]
    | true => by_cases hd : data.isEmpty <;> simp [write_xlsx, hd]
  · by_cases hd : data.isEmpty <;> simp [write_markdown, hd]

/-- C8: for nonempty data and positive `--markdown-top`, the Markdown
artifact has exactly `min M N` data-row lines and its trailing footer reads
`*Showing first min(M,N) rows of M total*`. -/
theorem c8_markdown_row_cap_and_footer (data : List Row) (top : Int) (redact : Bool)
    (hne : data ≠ []) (hpos : 0 < top) :
    ∃ f, write_markdown data top redact = some f
      ∧ f.dataLines.length = min data.length top.toNat
      ∧ f.footer = "\n*Showing first " ++ toString (min data.length top.toNat)
          ++ " rows of " ++ toString data.length ++ " total*\n" := by
  have hde : data.isEmpty = false := by
    cases data with
    | nil => exact absurd rfl hne
    | cons a l => rfl
  have hlen : (redactData redact (pySliceTo top data)).length
      = min data.length top.toNat := by
    rw [redactData_length, pySliceTo_length_of_nonneg top data (le_of_lt hpos)]
  refine ⟨⟨if (redactData redact (pySliceTo top data)).isEmpty then []
           else [mdRowLine (((redactData redact (pySliceTo top data)).headD []).map
                   (fun kv => kv.1)),
                 "|" ++ String.intercalate "|"
                   ((((redactData redact (pySliceTo top data)).headD []).map
                     (fun kv => kv.1)).map (fun _ => "---")) ++ "|\n"],
          (redactData redact (pySliceTo top data)).map (fun row =>
            mdRowLine ((((redactData redact (pySliceTo top data)).headD []).map
              (fun kv => kv.1)).map (fun h => lookupD row h ""))),
          "\n*Showing first " ++ toString (redactData redact (pySliceTo top data)).length
            ++ " rows of " ++ toString data.length ++ " total*\n"⟩, ?_, ?_, ?_⟩
  · unfold write_markdown
    rw [hde]
    rfl
  · show ((redactData redact (pySliceTo top data)).map _).length = _
    rw [List.length_map, hlen]
  · show "\n*Showing first " ++ toString (redactData redact (pySliceTo top data)).length
      ++ " rows of " ++ toString data.length ++ " total*\n" = _
    rw [hlen]

/-- Witness for C8: two rows, cap 1. -/
theorem c8_witness :
    ∃ f, write_markdown dataW8 1 false = some f
      ∧ f.dataLines.length = min dataW8.length (1 : Int).toNat
      ∧ f.footer = "\n*Showing first " ++ toString (min dataW8.length (1 : Int).toNat)
          ++ " rows of " ++ toString dataW8.length ++ " total*\n" :=
  c8_markdown_row_cap_and_footer dataW8 1 false (by decide) (by decide)

/-- C4: the resolver cache is keyed by principal ID alone: whatever principal
type (and flags) a second call passes for an already-resolved ID, it returns
the pair the first call produced, leaves the cache unchanged and issues zero
directory calls; and when redaction is requested on a cache miss, the
sentinel pair is what the call returns and what it caches. -/
theorem c4_resolver_cache_idempotent (dir : Directory) (cache : Cache)
    (pid t1 t2 : String) (nr1 r1 nr2 r2 : Bool) :
    ((resolve_principal dir (resolve_principal dir cache pid t1 nr1 r1).cache pid t2 nr2 r2).result
        = (resolve_principal dir cache pid t1 nr1 r1).result)
    ∧ ((resolve_principal dir (resolve_principal dir cache pid t1 nr1 r1).cache pid t2 nr2 r2).cache
        = (resolve_principal dir cache pid t1 nr1 r1).cache)
    ∧ ((resolve_principal dir (resolve_principal dir cache pid t1 nr1 r1).cache pid t2 nr2 r2).directoryCalls
        = 0)
    ∧ (cacheLookup cache pid = none →
        (resolve_principal dir cache pid t1 nr1 true).result = ("[REDACTED]", "[REDACTED]")
        ∧ cacheLookup (resolve_principal dir cache pid t1 nr1 true).cache pid
            = some ("[REDACTED]", "[REDACTED]")) := by
  have hsecond := resolve_principal_hit dir
    (resolve_principal dir cache pid t1 nr1 r1).cache pid t2 nr2 r2
    (resolve_principal dir cache pid t1 nr1 r1).result
    (resolve_principal_caches dir cache pid t1 nr1 r1)
  refine ⟨by rw [hsecond], by rw [hsecond], by rw [hsecond], ?_⟩
  intro hmiss
  have hres : (resolve_principal dir cache pid t1 nr1 true).result
      = ("[REDACTED]", "[REDACTED]") := by
    unfold resolve_principal
    rw [hmiss]
    by_cases hnr : nr1 <;> simp [hnr]
  refine ⟨hres, ?_⟩
  rw [resolve_principal_caches dir cache pid t1 nr1 true, hres]

/-- Witness for C4: a fresh cache, a graph-backed directory, a first lookup
typed `User`, a second typed `Group`. -/
theorem c4_witness :
    ((resolve_principal dirGraphW (resolve_principal dirGraphW [] "p1" "User" false false).cache
        "p1" "Group" false false).result
      = (resolve_principal dirGraphW [] "p1" "User" false false).result)
    ∧ ((resolve_principal dirGraphW (resolve_principal dirGraphW [] "p1" "User" false false).cache
        "p1" "Group" false false).directoryCalls = 0)
    ∧ ((resolve_principal dirGraphW [] "p1" "User" false true).result
        = ("[REDACTED]", "[REDACTED]")) := by
  have h := c4_resolver_cache_idempotent dirGraphW [] "p1" "User" "Group" false false false false
  have h2 := c4_resolver_cache_idempotent dirGraphW [] "p1" "User" "Group" false true false false
  exact ⟨h.1, h.2.2.1, (h2.2.2.2 rfl).1⟩

/-- Whatever else a run does, the post-rail body always writes the
`index.json` artifact. -/
theorem mainAfterRail_writes_index (env : Env) (args : Args) (mgs subs : List String)
    (rgMap : List (String × List String)) :
    ∃ d a, Artifact.indexJson d a ∈ (mainAfterRail env args mgs subs rgMap).artifacts := by
  unfold mainAfterRail
  dsimp only
  exact ⟨_, _, List.mem_append_right _ (List.Mem.head _)⟩

/-- C2: with more than 25 subscriptions (or more than 200 total resource
groups) discovered, a run without `--confirm-large-scan` stops at the safety
rail with exit code 2 and zero output artifacts (the rail fires before the
output directory is even created); with the flag, the threshold check passes
and the run proceeds into the post-rail body, which writes output artifacts
(at least `index.json`). -/
theorem c2_large_tenant_rail (env : Env) (args0 args : Args)
    (hval : validate_arguments args0 = Except.ok args)
    (hcred : env.credentialOk = true)
    (hsubs : (targetSubscriptions env args).isEmpty = false)
    (htrip : (targetSubscriptions env args).length > LARGE_SUBSCRIPTION_THRESHOLD
      ∨ totalRgCount (resourceGroupsPerSub env args (targetSubscriptions env args))
          > LARGE_RESOURCE_GROUP_THRESHOLD) :
    (args.confirm_large_scan = false →
       mainModel env args0 = { exitCode := 2, artifacts := [], assignments := [],
                               scopesSkipped := [], errors := [] })
    ∧ (args.confirm_large_scan = true →
       check_large_tenant_thresholds (targetSubscriptions env args)
         (resourceGroupsPerSub env args (targetSubscriptions env args)) args = true
       ∧ mainModel env args0 =
           mainAfterRail env args
             (if args.traverse_management_groups then env.managementGroups else [])
             (targetSubscriptions env args)
             (resourceGroupsPerSub env args (targetSubscriptions env args))
       ∧ ∃ d a, Artifact.indexJson d a ∈ (mainModel env args0).artifacts) := by
  have hcheck := check_thresholds_tripped (targetSubscriptions env args)
    (resourceGroupsPerSub env args (targetSubscriptions env args)) args htrip
  constructor
  · intro hc
    unfold mainModel
    rw [hval]
    simp [hcred, hsubs, hcheck, hc]
  · intro hc
    have hmain : mainModel env args0 =
        mainAfterRail env args
          (if args.traverse_management_groups then env.managementGroups else [])
          (targetSubscriptions env args)
          (resourceGroupsPerSub env args (targetSubscriptions env args)) := by
      unfold mainModel
      rw [hval]
      simp [hcred, hsubs, hcheck, hc]
    refine ⟨hcheck.trans hc, hmain, ?_⟩
    rw [hmain]
    exact mainAfterRail_writes_index env args _ _ _

/-- Witness for C2: a tenant of 26 subscriptions; without the flag the run
ends at the rail with exit code 2 and no artifacts, with the flag the
threshold check passes. -/
theorem c2_witness :
    mainModel env26 argsBase = { exitCode := 2, artifacts := [], assignments := [],
                                 scopesSkipped := [], errors := [] }
    ∧ check_large_tenant_thresholds (targetSubscriptions env26 argsConfirm)
        (resourceGroupsPerSub env26 argsConfirm (targetSubscriptions env26 argsConfirm))
        argsConfirm = true := by
  constructor
  · exact (c2_large_tenant_rail env26 argsBase argsBase rfl rfl rfl
      (Or.inl (by decide))).1 rfl
  · exact ((c2_large_tenant_rail env26 argsConfirm argsConfirm rfl rfl rfl
      (Or.inl (by decide))).2 rfl).1

/-- C6 counterexample: requesting `--group-membership-mode transitive`
without `--confirm-large-scan` makes `validate_arguments` terminate the
process with exit code 1 — not 2 as the claim states (source line 166 is
`sys.exit(1)`). -/
theorem c6_counterexample :
    args6.group_membership_mode = "transitive"
    ∧ args6.confirm_large_scan = false
    ∧ mainModel envTrivial args6 = { exitCode := 1, artifacts := [], assignments := [],
                                     scopesSkipped := [], errors := [] }
    ∧ (mainModel envTrivial args6).exitCode ≠ 2 := by
  refine ⟨rfl, rfl, rfl, by decide⟩

/-- C6 (amended): with transitive mode and no `--confirm-large-scan`, the
process aborts during argument validation — before any enumeration, with no
output artifacts — but with exit code 1, not 2. -/
theorem c6_transitive_requires_confirmation (env : Env) (args : Args)
    (hmode : args.group_membership_mode = "transitive")
    (hconf : args.confirm_large_scan = false) :
    validate_arguments args = Except.error 1
    ∧ mainModel env args = { exitCode := 1, artifacts := [], assignments := [],
                             scopesSkipped := [], errors := [] } := by
  have hv : validate_arguments args = Except.error 1 := by
    unfold validate_arguments
    by_cases h : args.subscriptions.isEmpty && !args.discover_subscriptions
        && !args.traverse_management_groups
    · rw [if_pos h]
    · rw [if_neg (by simp [h]), if_pos (by simp [hmode, hconf])]
  refine ⟨hv, ?_⟩
  unfold mainModel
  rw [hv]

/-- Witness for C6's amended claim at a concrete argument record. -/
theorem c6_witness :
    validate_arguments args6 = Except.error 1
    ∧ mainModel envTrivial args6 = { exitCode := 1, artifacts := [], assignments := [],
                                     scopesSkipped := [], errors := [] } :=
  c6_transitive_requires_confirmation envTrivial args6 rfl rfl

/-- C7 counterexample: in a tenant where the role-assignment fetch for
subscription `sub1` raises and the fetch for `sub2` succeeds, the run's
skipped-scopes list stays empty (no `SUB:sub1` entry is recorded), the error
list stays empty, the run exits 0, and aggregation nevertheless continued
through `sub2` (its single assignment is in the merged output). -/
theorem c7_counterexample :
    env7.roleAssignments "/subscriptions/sub1" = Except.error ()
    ∧ (mainModel env7 args7).scopesSkipped = []
    ∧ (mainModel env7 args7).errors = []
    ∧ (mainModel env7 args7).exitCode = 0
    ∧ (mainModel env7 args7).assignments.map (fun a => a.assignmentId) = ["a2"] := by
  refine ⟨rfl, rfl, rfl, rfl, by decide⟩

/-- C7 (amended): a per-scope fetch failure is caught and logged inside the
fetch helper itself, which returns an empty list, and aggregation continues
with the remaining scopes — but no `MG:`/`SUB:`/`RG:` entry is ever appended:
the skipped-scopes (and error) lists of every run are empty, because the
tagged `except` branches in `main` are unreachable for fetch failures. -/
theorem c7_fetch_failure_skipped_silently :
    (∀ s, get_role_assignments (Except.error ()) s = [])
    ∧ (∀ (env : Env) (args : Args),
        (mainModel env args).scopesSkipped = [] ∧ (mainModel env args).errors = [])
    ∧ (∀ (env : Env) (args : Args) (rgMap : List (String × List String))
         (rest : List String) (s : String),
        env.roleAssignments (subScope s) = Except.error () →
        args.include_resources = false → args.limit = none →
        processSubs env args rgMap (s :: rest) 0 0 =
          (get_role_definitions (env.roleDefs (subScope s))
             ++ (processSubs env args rgMap rest 1 0).1,
           (processSubs env args rgMap rest 1 0).2)) := by
  refine ⟨fun s => rfl, ?_, ?_⟩
  · intro env args
    unfold mainModel
    rcases hv : validate_arguments args with code | a
    · exact ⟨rfl, rfl⟩
    · dsimp only
      split
      · exact ⟨rfl, rfl⟩
      · split
        · exact ⟨rfl, rfl⟩
        · split
          · exact ⟨rfl, rfl⟩
          · exact ⟨rfl, rfl⟩
  · intro env args rgMap rest s hfetch hinc hlim
    simp only [processSubs, hfetch, hinc, hlim]
    simp [get_role_assignments, markInherited, limitTruthy]

/-- Witness for C7's amended claim at concrete inputs. -/
theorem c7_witness :
    get_role_assignments (Except.error ()) "/subscriptions/x" = []
    ∧ (mainModel env7 args7).scopesSkipped = []
    ∧ processSubs env7 args7 [] ["sub1"] 0 0 =
        (get_role_definitions (env7.roleDefs (subScope "sub1"))
           ++ (processSubs env7 args7 [] [] 1 0).1,
         (processSubs env7 args7 [] [] 1 0).2) :=
  ⟨c7_fetch_failure_skipped_silently.1 "/subscriptions/x",
   (c7_fetch_failure_skipped_silently.2.1 env7 args7).1,
   c7_fetch_failure_skipped_silently.2.2 env7 args7 [] [] "sub1" rfl rfl rfl⟩

end RbacExport
